import Mathlib

/-!
Verification of the pydgraph transaction client engine against its
natural-language specification.  The repository snapshot under study ships
only documentation, build scripts and design notes; the client engine
itself (DgraphClient, Txn, the error taxonomy and the async mirror) is
modelled here from the specification, definition by definition.  Machine
integers of the protocol (uint64 timestamps) are modelled as Nat; sets of
conflict keys and predicates as Finset String; every remote call is
scripted: an operation takes the server response it would receive as an
explicit argument and reports how many RPCs it issued.
-/

set_option linter.unusedVariables false

namespace Pydgraph

/-- Modelled from the spec: lifecycle states of a Transaction
(section 4.3): Active with terminal states Committed and Discarded. -/
inductive TxnState where
  | active
  | committed
  | discarded
deriving DecidableEq, Repr

/-- Modelled from the spec: the transaction context echoed by the server
on every Request response (sections 3 and 6): start timestamp, touched
conflict keys, touched predicates, optional commit timestamp and the
optimistic-lock hash. -/
structure TxnContext where
  start_ts : Nat
  keys : List String
  preds : List String
  commit_ts : Nat
  hash : String
deriving DecidableEq, Repr

/-- Modelled from the spec: a server response to a Request call: an opaque
payload (JSON or RDF body) plus the echoed transaction context. -/
structure Response where
  payload : String
  ctx : TxnContext
deriving DecidableEq, Repr

/-- Modelled from the spec: the error taxonomy of section 7
(kinds, not concrete type names). -/
inductive ErrKind where
  | connectionError
  | authError
  | tokenExpired
  | abortedError
  | txnStateError
  | invalidArgument
deriving DecidableEq, Repr

/-- Modelled from the spec: the Transaction record (section 3): start
timestamp unset until the first server interaction, accumulated key and
predicate sets, the read-only and best-effort flags, the lifecycle state,
the echoed hash and the commit timestamp recorded on success. -/
structure Txn where
  start_ts : Option Nat
  keys : Finset String
  preds : Finset String
  read_only : Bool
  best_effort : Bool
  state : TxnState
  hash : String
  commit_ts : Option Nat
deriving DecidableEq

/-- Modelled from the spec: values returned to the caller by a successful
transaction operation: a raw response payload, a commit timestamp, or
nothing (discard). -/
inductive RespVal where
  | payload (s : String)
  | ts (n : Option Nat)
  | unit
deriving DecidableEq, Repr

/-- Result of one transaction operation: the outcome surfaced to the
caller, the transaction record afterwards, and the number of RPCs the
operation issued. -/
structure StepResult where
  res : Except ErrKind RespVal
  txn : Txn
  rpcs : Nat

/-- Modelled from the spec: the start timestamp is latched from the
response context on the first call of the transaction and is immutable
thereafter (section 3, invariants). -/
def latch_ts (cur : Option Nat) (fresh : Nat) : Option Nat :=
  match cur with
  | none => some fresh
  | some s => some s

/-- Modelled from the spec: the context-merge step of section 3: latch the
start timestamp if unset, union the echoed keys and predicates into the
accumulated sets (idempotent union) and take the new hash. -/
def merge_context (t : Txn) (ctx : TxnContext) : Txn :=
  { t with
    start_ts := latch_ts t.start_ts ctx.start_ts,
    keys := t.keys ∪ ctx.keys.toFinset,
    preds := t.preds ∪ ctx.preds.toFinset,
    hash := ctx.hash }

/-- Modelled from the spec: Txn.query (section 4.3): legal only in Active;
latches the start timestamp on the first call; never mutates the key or
predicate sets; returns the raw response payload.  Outside Active it fails
synchronously with a transaction-state error and issues no RPC. -/
def Txn.query (t : Txn) (resp : Response) : StepResult :=
  if t.state = TxnState.active then
    ⟨Except.ok (RespVal.payload resp.payload),
     { t with start_ts := latch_ts t.start_ts resp.ctx.start_ts }, 1⟩
  else ⟨Except.error ErrKind.txnStateError, t, 0⟩

/-- Modelled from the spec: Txn.mutate (section 4.3): illegal on a
read-only transaction and outside Active, checked synchronously before any
RPC; otherwise sends the mutation, merges the echoed context into the
accumulated sets, and on commit-now transitions to Committed recording the
commit timestamp. -/
def Txn.mutate (t : Txn) (resp : Response) (commit_now : Bool) : StepResult :=
  if t.read_only then ⟨Except.error ErrKind.txnStateError, t, 0⟩
  else if t.state ≠ TxnState.active then ⟨Except.error ErrKind.txnStateError, t, 0⟩
  else
    let t1 := merge_context t resp.ctx
    let t2 :=
      if commit_now then
        { t1 with state := TxnState.committed, commit_ts := some resp.ctx.commit_ts }
      else t1
    ⟨Except.ok (RespVal.payload resp.payload), t2, 1⟩

/-- Modelled from the spec: Txn.do_request (section 4.3): generalizes
query and mutate into one call carrying zero or more mutations; with a
mutation it follows the state-merge and commit-now rules of mutate, and
without one it behaves as a query (only mutations change the tracked
sets). -/
def Txn.do_request (t : Txn) (resp : Response) (has_mutation commit_now : Bool) : StepResult :=
  if has_mutation then t.mutate resp commit_now else t.query resp

/-- Modelled from the spec: the server outcome of a commit RPC: success
with a commit timestamp, or a server-detected write-write conflict. -/
inductive CommitOutcome where
  | ok (commit_ts : Nat)
  | conflict
deriving DecidableEq, Repr

/-- Modelled from the spec: Txn.commit (section 4.3): illegal outside
Active (synchronous failure, no RPC); a commit of a read-only transaction
is a no-op success with nothing sent; otherwise one commit RPC is issued:
on success the transaction becomes Committed and records the commit
timestamp, on a server-detected conflict it fails with AbortedError and
the record is left untouched (still Active); the engine never retries. -/
def Txn.commit (t : Txn) (outcome : CommitOutcome) : StepResult :=
  if t.state ≠ TxnState.active then ⟨Except.error ErrKind.txnStateError, t, 0⟩
  else if t.read_only then
    ⟨Except.ok (RespVal.ts none), { t with state := TxnState.committed }, 0⟩
  else
    match outcome with
    | CommitOutcome.ok cts =>
        ⟨Except.ok (RespVal.ts (some cts)),
         { t with state := TxnState.committed, commit_ts := some cts }, 1⟩
    | CommitOutcome.conflict => ⟨Except.error ErrKind.abortedError, t, 1⟩

/-- Modelled from the spec: Txn.discard (section 4.3): legal in any state;
a no-op when already Committed or Discarded (no error, no RPC); on a still
Active transaction it sends one best-effort discard notification whose
failure is swallowed (the rpc_ok flag scripts whether that notification
succeeded and never influences the result) and transitions to
Discarded. -/
def Txn.discard (t : Txn) (rpc_ok : Bool) : StepResult :=
  if t.state = TxnState.active then
    ⟨Except.ok RespVal.unit, { t with state := TxnState.discarded }, 1⟩
  else ⟨Except.ok RespVal.unit, t, 0⟩

/-- Modelled from the spec: the transaction factory (section 4.2):
constructing a transaction incurs no RPC; requesting best-effort without
read-only fails fast with InvalidArgument and issues zero RPCs. -/
def new_txn (read_only best_effort : Bool) : Except ErrKind Txn × Nat :=
  if best_effort && !read_only then (Except.error ErrKind.invalidArgument, 0)
  else
    (Except.ok
      { start_ts := none, keys := ∅, preds := ∅, read_only := read_only,
        best_effort := best_effort, state := TxnState.active, hash := "",
        commit_ts := none }, 0)

/-- One scripted transaction operation: which call the caller makes and
the server response or outcome it would receive. -/
inductive Op where
  | query (resp : Response)
  | mutate (resp : Response) (commit_now : Bool)
  | do_req (resp : Response) (has_mutation commit_now : Bool)
  | commit (outcome : CommitOutcome)
  | discard (rpc_ok : Bool)
deriving DecidableEq, Repr

/-- Dispatch of one scripted operation to the transaction operation it
names. -/
def Txn.step (t : Txn) (op : Op) : StepResult :=
  match op with
  | Op.query resp => t.query resp
  | Op.mutate resp cn => t.mutate resp cn
  | Op.do_req resp hm cn => t.do_request resp hm cn
  | Op.commit outcome => t.commit outcome
  | Op.discard b => t.discard b

/-- Accumulated result of running a whole scripted sequence: the final
transaction record, the outcome of every call in order, and the total
number of RPCs issued. -/
structure RunResult where
  txn : Txn
  outputs : List (Except ErrKind RespVal)
  rpcs : Nat

/-- Run a scripted sequence of operations through the blocking
transaction, threading the record and collecting outcomes and RPC
counts. -/
def run_ops : Txn → List Op → RunResult
  | t, [] => ⟨t, [], 0⟩
  | t, op :: ops =>
    let s := t.step op
    let r := run_ops s.txn ops
    ⟨r.txn, s.res :: r.outputs, s.rpcs + r.rpcs⟩

/-- A cooperative computation: either a finished value or a suspension at
an RPC boundary.  The async mirror of the engine returns these; a suspend
node marks exactly one point where the task yields to the scheduler. -/
inductive Proc (α : Type) where
  | done (a : α)
  | suspend (k : Unit → Proc α)

/-- Drive a cooperative computation to completion. -/
def Proc.run : Proc α → α
  | Proc.done a => a
  | Proc.suspend k => (k ()).run

/-- Count the suspension points passed while driving the computation. -/
def Proc.steps : Proc α → Nat
  | Proc.done _ => 0
  | Proc.suspend k => (k ()).steps + 1

/-- Sequencing of cooperative computations. -/
def Proc.bind : Proc α → (α → Proc β) → Proc β
  | Proc.done a, f => f a
  | Proc.suspend k, f => Proc.suspend fun u => (k u).bind f

/-- Modelled from the spec: the async mirror of Txn.query (section 4.4):
the invariant check never suspends; the RPC is one suspension point; the
decisions are those of the blocking form. -/
def Txn.async_query (t : Txn) (resp : Response) : Proc StepResult :=
  if t.state = TxnState.active then
    Proc.suspend fun _ =>
      Proc.done
        ⟨Except.ok (RespVal.payload resp.payload),
         { t with start_ts := latch_ts t.start_ts resp.ctx.start_ts }, 1⟩
  else Proc.done ⟨Except.error ErrKind.txnStateError, t, 0⟩

/-- Modelled from the spec: the async mirror of Txn.mutate (section 4.4):
synchronous invariant checks, one suspension at the mutation RPC, then the
same merge and commit-now rules as the blocking form. -/
def Txn.async_mutate (t : Txn) (resp : Response) (commit_now : Bool) : Proc StepResult :=
  if t.read_only then Proc.done ⟨Except.error ErrKind.txnStateError, t, 0⟩
  else if t.state ≠ TxnState.active then Proc.done ⟨Except.error ErrKind.txnStateError, t, 0⟩
  else
    Proc.suspend fun _ =>
      let t1 := merge_context t resp.ctx
      let t2 :=
        if commit_now then
          { t1 with state := TxnState.committed, commit_ts := some resp.ctx.commit_ts }
        else t1
      Proc.done ⟨Except.ok (RespVal.payload resp.payload), t2, 1⟩

/-- Modelled from the spec: the async mirror of Txn.do_request
(section 4.4). -/
def Txn.async_do_request (t : Txn) (resp : Response) (has_mutation commit_now : Bool) :
    Proc StepResult :=
  if has_mutation then t.async_mutate resp commit_now else t.async_query resp

/-- Modelled from the spec: the async mirror of Txn.commit
(section 4.4). -/
def Txn.async_commit (t : Txn) (outcome : CommitOutcome) : Proc StepResult :=
  if t.state ≠ TxnState.active then Proc.done ⟨Except.error ErrKind.txnStateError, t, 0⟩
  else if t.read_only then
    Proc.done ⟨Except.ok (RespVal.ts none), { t with state := TxnState.committed }, 0⟩
  else
    Proc.suspend fun _ =>
      match outcome with
      | CommitOutcome.ok cts =>
          Proc.done
            ⟨Except.ok (RespVal.ts (some cts)),
             { t with state := TxnState.committed, commit_ts := some cts }, 1⟩
      | CommitOutcome.conflict => Proc.done ⟨Except.error ErrKind.abortedError, t, 1⟩

/-- Modelled from the spec: the async mirror of Txn.discard
(section 4.4). -/
def Txn.async_discard (t : Txn) (rpc_ok : Bool) : Proc StepResult :=
  if t.state = TxnState.active then
    Proc.suspend fun _ =>
      Proc.done ⟨Except.ok RespVal.unit, { t with state := TxnState.discarded }, 1⟩
  else Proc.done ⟨Except.ok RespVal.unit, t, 0⟩

/-- Dispatch of one scripted operation in the async mirror. -/
def Txn.async_step (t : Txn) (op : Op) : Proc StepResult :=
  match op with
  | Op.query resp => t.async_query resp
  | Op.mutate resp cn => t.async_mutate resp cn
  | Op.do_req resp hm cn => t.async_do_request resp hm cn
  | Op.commit outcome => t.async_commit outcome
  | Op.discard b => t.async_discard b

/-- Run a scripted sequence of operations through the async mirror. -/
def async_run_ops : Txn → List Op → Proc RunResult
  | t, [] => Proc.done ⟨t, [], 0⟩
  | t, op :: ops =>
    (t.async_step op).bind fun s =>
      (async_run_ops s.txn ops).bind fun r =>
        Proc.done ⟨r.txn, s.res :: r.outputs, s.rpcs + r.rpcs⟩

/-- Outcome of a call routed through the authenticated call wrapper: the
result surfaced to the caller, the number of login-refresh RPCs performed,
and the number of invocations of the wrapped operation. -/
structure WrapOutcome (α : Type) where
  result : Except ErrKind α
  login_rpcs : Nat
  op_calls : Nat

/-- Modelled from the spec: the JWT-expiry test of the util module: an
error is classified as token-expired exactly when it is the
token-expired kind. -/
def is_jwt_expired : ErrKind → Bool
  | ErrKind.tokenExpired => true
  | _ => false

/-- Modelled from the spec: the Authenticated Call Wrapper (section 4.1):
with no login required or no token configured the operation runs once and
its outcome propagates unchanged; otherwise a first failure classified as
token-expired triggers exactly one login-refresh RPC and exactly one retry
of the operation; a token-expired failure on the retry surfaces as
AuthError without a second refresh; any other failure propagates on the
first attempt without retry.  The scripted operation maps the attempt
index to the outcome the server would give. -/
def run_with_retry (requires_login has_token : Bool) (op : Nat → Except ErrKind α) :
    WrapOutcome α :=
  if !requires_login || !has_token then ⟨op 0, 0, 1⟩
  else
    match op 0 with
    | Except.error e =>
      if is_jwt_expired e then
        match op 1 with
        | Except.error e2 =>
          if is_jwt_expired e2 then ⟨Except.error ErrKind.authError, 1, 2⟩
          else ⟨Except.error e2, 1, 2⟩
        | Except.ok a => ⟨Except.ok a, 1, 2⟩
      else ⟨Except.error e, 0, 1⟩
    | Except.ok a => ⟨Except.ok a, 0, 1⟩

/-- Modelled from the spec: the futures-based async entry points
(async_alter, async_query, async_mutate of the README): the returned
future carries the raw first-attempt outcome; no token refresh and no
retry happen, and a JWT-expired failure is surfaced for the caller to
detect and handle via retry_login. -/
def async_future_call (op : Nat → Except ErrKind α) : WrapOutcome α :=
  ⟨op 0, 0, 1⟩

/-- Modelled from the spec: the three allocation kinds served by the
shared allocation helper (section 4.2). -/
inductive LeaseKind where
  | uid
  | timestamp
  | ns
deriving DecidableEq, Repr

/-- Modelled from the spec: the shared allocate_ids helper (section 4.2):
the count must be a positive integer, else the call fails with
InvalidArgument and issues no RPC; otherwise one allocation RPC is issued
and the half-open range from the leased start of width count is
returned. -/
def allocate_ids (kind : LeaseKind) (n : Nat) (start : Nat) :
    Except ErrKind (Nat × Nat) × Nat :=
  if n = 0 then (Except.error ErrKind.invalidArgument, 0)
  else (Except.ok (start, start + n), 1)

/-- Modelled from the spec: allocate_uids delegates to the shared
helper. -/
def allocate_uids : Nat → Nat → Except ErrKind (Nat × Nat) × Nat :=
  allocate_ids LeaseKind.uid

/-- Modelled from the spec: allocate_timestamps delegates to the shared
helper. -/
def allocate_timestamps : Nat → Nat → Except ErrKind (Nat × Nat) × Nat :=
  allocate_ids LeaseKind.timestamp

/-- Modelled from the spec: allocate_namespaces delegates to the shared
helper. -/
def allocate_namespaces : Nat → Nat → Except ErrKind (Nat × Nat) × Nat :=
  allocate_ids LeaseKind.ns

/-- Scripted outcome of one whole attempt of the body run by the
run-in-transaction helper: clean success, a commit rejected with
AbortedError, or any other failure. -/
inductive AttemptResult where
  | success
  | abort
  | failOther (k : ErrKind)
deriving DecidableEq, Repr

/-- Modelled from the spec: the opt-in run_in_transaction helper
(section 4.3): it opens a fresh transaction per attempt, commits on
success, discards on any exception, and retries the whole sequence only on
AbortedError, up to the given retry budget; every other failure propagates
without retry.  Returns the surfaced outcome and the number of attempts
made. -/
def run_in_transaction : Nat → List AttemptResult → Except ErrKind Unit × Nat
  | _, [] => (Except.ok (), 0)
  | _, AttemptResult.success :: _ => (Except.ok (), 1)
  | _, AttemptResult.failOther k :: _ => (Except.error k, 1)
  | 0, AttemptResult.abort :: _ => (Except.error ErrKind.abortedError, 1)
  | fuel + 1, AttemptResult.abort :: rest =>
    let r := run_in_transaction fuel rest
    (r.1, r.2 + 1)

/-- The key set a single response contributes. -/
def ctx_keys (resp : Response) : Finset String := resp.ctx.keys.toFinset

/-- The predicate set a single response contributes. -/
def ctx_preds (resp : Response) : Finset String := resp.ctx.preds.toFinset

/-- Union of the key sets carried by a list of responses. -/
def union_keys : List Response → Finset String
  | [] => ∅
  | r :: rs => ctx_keys r ∪ union_keys rs

/-- Union of the predicate sets carried by a list of responses. -/
def union_preds : List Response → Finset String
  | [] => ∅
  | r :: rs => ctx_preds r ∪ union_preds rs

/-- Fold a list of scripted mutate calls (commit-now false) over a
transaction. -/
def apply_mutates : Txn → List Response → Txn
  | t, [] => t
  | t, r :: rs => apply_mutates (t.mutate r false).txn rs

lemma merge_context_keys (t : Txn) (ctx : TxnContext) :
    (merge_context t ctx).keys = t.keys ∪ ctx.keys.toFinset := rfl

lemma merge_context_preds (t : Txn) (ctx : TxnContext) :
    (merge_context t ctx).preds = t.preds ∪ ctx.preds.toFinset := rfl

lemma merge_context_state (t : Txn) (ctx : TxnContext) :
    (merge_context t ctx).state = t.state := rfl

lemma merge_context_read_only (t : Txn) (ctx : TxnContext) :
    (merge_context t ctx).read_only = t.read_only := rfl

lemma mutate_plain (t : Txn) (resp : Response)
    (hro : t.read_only = false) (hs : t.state = TxnState.active) :
    t.mutate resp false =
      ⟨Except.ok (RespVal.payload resp.payload), merge_context t resp.ctx, 1⟩ := by
  simp [Txn.mutate, hro, hs]

lemma apply_mutates_spec (rs : List Response) :
    ∀ t : Txn, t.state = TxnState.active → t.read_only = false →
      (apply_mutates t rs).keys = t.keys ∪ union_keys rs ∧
      (apply_mutates t rs).preds = t.preds ∪ union_preds rs := by
  induction rs with
  | nil =>
    intro t hs hro
    simp [apply_mutates, union_keys, union_preds]
  | cons r rs ih =>
    intro t hs hro
    have hm := mutate_plain t r hro hs
    have h2 := ih (merge_context t r.ctx)
      (by rw [merge_context_state]; exact hs)
      (by rw [merge_context_read_only]; exact hro)
    simp only [apply_mutates, hm, union_keys, union_preds]
    rw [h2.1, h2.2, merge_context_keys, merge_context_preds]
    constructor
    · rw [Finset.union_assoc]; rfl
    · rw [Finset.union_assoc]; rfl

/-- Claim C1: over every sequence of N mutate calls on a single
transaction that starts with empty tracked sets, the tracked key set after
the N calls equals the idempotent set union of the key sets carried in the
N server responses, and by the same merge rule so does the predicate set;
duplicate keys across calls collapse because the sets are Finsets. -/
theorem c1_mutate_keys_union (t : Txn) (rs : List Response)
    (hs : t.state = TxnState.active) (hro : t.read_only = false)
    (hk : t.keys = ∅) (hp : t.preds = ∅) :
    (apply_mutates t rs).keys = union_keys rs ∧
    (apply_mutates t rs).preds = union_preds rs := by
  have h := apply_mutates_spec rs t hs hro
  rw [h.1, h.2, hk, hp, Finset.empty_union, Finset.empty_union]
  exact ⟨rfl, rfl⟩

/-- A transaction as the factory builds it for a read-write session. -/
def t0 : Txn :=
  { start_ts := none, keys := ∅, preds := ∅, read_only := false,
    best_effort := false, state := TxnState.active, hash := "",
    commit_ts := none }

/-- A scripted mutate response touching keys a and b. -/
def resp_ab : Response := ⟨"", ⟨5, ["a", "b"], ["p"], 0, "h1"⟩⟩

/-- A scripted mutate response touching keys b and c: key b repeats
across the two calls. -/
def resp_bc : Response := ⟨"", ⟨5, ["b", "c"], ["q"], 0, "h2"⟩⟩

/-- Witness for C1 on two mutate calls with an overlapping key. -/
theorem c1_witness :
    (apply_mutates t0 [resp_ab, resp_bc]).keys = union_keys [resp_ab, resp_bc] ∧
    (apply_mutates t0 [resp_ab, resp_bc]).preds = union_preds [resp_ab, resp_bc] :=
  c1_mutate_keys_union t0 [resp_ab, resp_bc] rfl rfl rfl rfl

lemma query_start_some (t : Txn) (resp : Response) (s : Nat)
    (h : t.start_ts = some s) : (t.query resp).txn.start_ts = some s := by
  unfold Txn.query
  split <;> simp [latch_ts, h]

lemma mutate_start_some (t : Txn) (resp : Response) (cn : Bool) (s : Nat)
    (h : t.start_ts = some s) : (t.mutate resp cn).txn.start_ts = some s := by
  unfold Txn.mutate
  split
  · exact h
  split
  · exact h
  split <;> simp [merge_context, latch_ts, h]

lemma do_request_start_some (t : Txn) (resp : Response) (hm cn : Bool) (s : Nat)
    (h : t.start_ts = some s) : (t.do_request resp hm cn).txn.start_ts = some s := by
  unfold Txn.do_request
  split
  · exact mutate_start_some t resp cn s h
  · exact query_start_some t resp s h

lemma commit_start_some (t : Txn) (outcome : CommitOutcome) (s : Nat)
    (h : t.start_ts = some s) : (t.commit outcome).txn.start_ts = some s := by
  unfold Txn.commit
  split
  · exact h
  split
  · exact h
  cases outcome <;> simp [h]

lemma discard_start_some (t : Txn) (b : Bool) (s : Nat)
    (h : t.start_ts = some s) : (t.discard b).txn.start_ts = some s := by
  unfold Txn.discard
  split <;> simp [h]

lemma step_start_some (t : Txn) (op : Op) (s : Nat)
    (h : t.start_ts = some s) : (t.step op).txn.start_ts = some s := by
  cases op with
  | query resp => exact query_start_some t resp s h
  | mutate resp cn => exact mutate_start_some t resp cn s h
  | do_req resp hm cn => exact do_request_start_some t resp hm cn s h
  | commit outcome => exact commit_start_some t outcome s h
  | discard b => exact discard_start_some t b s h

lemma run_ops_start_some (ops : List Op) :
    ∀ (t : Txn) (s : Nat), t.start_ts = some s →
      (run_ops t ops).txn.start_ts = some s := by
  induction ops with
  | nil => intro t s h; simpa [run_ops] using h
  | cons op ops ih =>
    intro t s h
    simp only [run_ops]
    exact ih _ s (step_start_some t op s h)

/-- Claim C2: the start timestamp is assigned at most once, by the first
of query, mutate or do_request that completes against the server: from an
unset start timestamp each of the three latches the timestamp of the
response context, and once it is set, every subsequent operation of any
kind, over any whole sequence of operations, leaves it unchanged. -/
theorem c2_start_ts_once (t : Txn) (resp : Response)
    (hunset : t.start_ts = none) (hact : t.state = TxnState.active)
    (hro : t.read_only = false) :
    (t.query resp).txn.start_ts = some resp.ctx.start_ts ∧
    (t.mutate resp false).txn.start_ts = some resp.ctx.start_ts ∧
    (t.do_request resp true false).txn.start_ts = some resp.ctx.start_ts ∧
    ∀ (t2 : Txn) (s : Nat) (ops : List Op), t2.start_ts = some s →
      (run_ops t2 ops).txn.start_ts = some s := by
  refine ⟨?_, ?_, ?_, ?_⟩
  · simp [Txn.query, hact, latch_ts, hunset]
  · simp [Txn.mutate, hro, hact, merge_context, latch_ts, hunset]
  · simp [Txn.do_request, Txn.mutate, hro, hact, merge_context, latch_ts, hunset]
  · intro t2 s ops h
    exact run_ops_start_some ops t2 s h

/-- Witness for C2: a fresh transaction latches 5 from its first query
response, and a later scripted sequence of a query, a mutate and a commit
leaves the latched value untouched. -/
theorem c2_witness :
    (t0.query resp_ab).txn.start_ts = some 5 ∧
    (run_ops (t0.query resp_ab).txn
      [Op.query resp_bc, Op.mutate resp_bc false,
       Op.commit (CommitOutcome.ok 9)]).txn.start_ts = some 5 := by
  have h := c2_start_ts_once t0 resp_ab rfl rfl rfl
  exact ⟨h.1, h.2.2.2 (t0.query resp_ab).txn 5 _ h.1⟩

/-- Claim C8: a query call never changes the tracked key and predicate
sets: after any query, in whatever state and sequence position, both sets
are exactly what they were before; the same holds for a do_request that
carries no mutation. -/
theorem c8_query_frame (t : Txn) (resp : Response) (cn : Bool) :
    (t.query resp).txn.keys = t.keys ∧
    (t.query resp).txn.preds = t.preds ∧
    (t.do_request resp false cn).txn.keys = t.keys ∧
    (t.do_request resp false cn).txn.preds = t.preds := by
  have hq : (t.query resp).txn.keys = t.keys ∧ (t.query resp).txn.preds = t.preds := by
    unfold Txn.query
    split <;> exact ⟨rfl, rfl⟩
  have hd : t.do_request resp false cn = t.query resp := by
    simp [Txn.do_request]
  exact ⟨hq.1, hq.2, by rw [hd]; exact hq.1, by rw [hd]; exact hq.2⟩

/-- Claim C3: on an authenticated call whose first attempt fails as
token-expired, the wrapper performs exactly one login-refresh RPC and
exactly one retry (two invocations of the call in total); a token-expired
failure on the retry surfaces as AuthError with still only the one
refresh; a successful retry propagates its value; and a first failure not
classified as token-expired propagates on the first attempt with no
refresh and no retry, as does a first success. -/
theorem c3_auth_wrapper {α : Type} (op : Nat → Except ErrKind α) (k : ErrKind) (a : α) :
    (op 0 = Except.error ErrKind.tokenExpired →
      (run_with_retry true true op).login_rpcs = 1 ∧
      (run_with_retry true true op).op_calls = 2 ∧
      (op 1 = Except.error ErrKind.tokenExpired →
        (run_with_retry true true op).result = Except.error ErrKind.authError) ∧
      (op 1 = Except.ok a → (run_with_retry true true op).result = Except.ok a)) ∧
    (op 0 = Except.error k → is_jwt_expired k = false →
      (run_with_retry true true op).result = Except.error k ∧
      (run_with_retry true true op).login_rpcs = 0 ∧
      (run_with_retry true true op).op_calls = 1) ∧
    (op 0 = Except.ok a →
      (run_with_retry true true op).result = Except.ok a ∧
      (run_with_retry true true op).login_rpcs = 0 ∧
      (run_with_retry true true op).op_calls = 1) := by
  refine ⟨?_, ?_, ?_⟩
  · intro h1
    cases h2 : op 1 with
    | error e2 => cases e2 <;> simp [run_with_retry, h1, h2, is_jwt_expired]
    | ok b =>
      simp only [run_with_retry, h1, h2, is_jwt_expired]
      refine ⟨by simp, by simp, by simp, ?_⟩
      intro hba
      simp [Except.ok.injEq] at hba
      simp [hba]
  · intro h1 hk
    simp [run_with_retry, h1, hk]
  · intro h1
    simp [run_with_retry, h1]

/-- A scripted operation whose first attempt reports an expired token and
whose retry succeeds with the value 7. -/
def opW : Nat → Except ErrKind Nat :=
  fun n => if n = 0 then Except.error ErrKind.tokenExpired else Except.ok 7

/-- Witness for C3 on the scripted operation opW. -/
theorem c3_witness :
    (run_with_retry true true opW).login_rpcs = 1 ∧
    (run_with_retry true true opW).op_calls = 2 ∧
    (run_with_retry true true opW).result = Except.ok 7 := by
  have h := (c3_auth_wrapper opW ErrKind.connectionError 7).1 rfl
  exact ⟨h.1, h.2.1, h.2.2.2 rfl⟩

/-- Claim C10: the futures-based async entry points do not pass through
the token-refresh wrapper: when the access token has expired, the future
carries the raw JWT-expired failure, no login-refresh RPC happens and the
call is made exactly once, and the error is the one the caller detects via
the JWT-expiry test; the same scripted call routed through the wrapper, as
the blocking and native async paths are, refreshes automatically with one
login RPC. -/
theorem c10_futures_no_refresh {α : Type} (op : Nat → Except ErrKind α)
    (h : op 0 = Except.error ErrKind.tokenExpired) :
    (async_future_call op).result = Except.error ErrKind.tokenExpired ∧
    (async_future_call op).login_rpcs = 0 ∧
    (async_future_call op).op_calls = 1 ∧
    is_jwt_expired ErrKind.tokenExpired = true ∧
    (run_with_retry true true op).login_rpcs = 1 ∧
    (run_with_retry true true op).op_calls = 2 := by
  refine ⟨by simp [async_future_call, h], rfl, rfl, rfl, ?_, ?_⟩ <;>
    · cases h2 : op 1 with
      | error e2 => cases e2 <;> simp [run_with_retry, h, h2, is_jwt_expired]
      | ok b => simp [run_with_retry, h, h2, is_jwt_expired]

/-- Witness for C10 on the scripted operation opW. -/
theorem c10_witness :
    (async_future_call opW).result = Except.error ErrKind.tokenExpired ∧
    (async_future_call opW).login_rpcs = 0 ∧
    (run_with_retry true true opW).login_rpcs = 1 := by
  have h := c10_futures_no_refresh opW rfl
  exact ⟨h.1, h.2.1, h.2.2.2.2.1⟩

/-- Claim C7: for every positive count the three allocation entry points,
through the shared helper, issue one RPC and return the half-open range
from the leased start whose width is exactly the count; a count that is
not a positive integer fails with InvalidArgument and issues no RPC. -/
theorem c7_allocate_ids (n start : Nat) (kind : LeaseKind) (h : 0 < n) :
    allocate_uids n start = (Except.ok (start, start + n), 1) ∧
    allocate_timestamps n start = (Except.ok (start, start + n), 1) ∧
    allocate_namespaces n start = (Except.ok (start, start + n), 1) ∧
    (start + n) - start = n ∧
    allocate_ids kind 0 start = (Except.error ErrKind.invalidArgument, 0) := by
  have hn : n ≠ 0 := Nat.pos_iff_ne_zero.mp h
  refine ⟨?_, ?_, ?_, by omega, by simp [allocate_ids]⟩ <;>
    simp [allocate_uids, allocate_timestamps, allocate_namespaces, allocate_ids, hn]

/-- Witness for C7: allocating 10 uids from a lease starting at 100 gives
the range from 100 to 110 of width 10; a zero count is rejected without an
RPC. -/
theorem c7_witness :
    allocate_uids 10 100 = (Except.ok (100, 110), 1) ∧
    allocate_ids LeaseKind.uid 0 100 = (Except.error ErrKind.invalidArgument, 0) := by
  have h := c7_allocate_ids 10 100 LeaseKind.uid (by decide)
  exact ⟨h.1, h.2.2.2.2⟩

/-- Claim C4: when the server detects a write-write conflict on commit,
the transaction surfaces AbortedError and its record is returned exactly
as it was, in particular still Active, after the single commit RPC (the
engine never retries the commit); the opt-in run-in-transaction helper is
the only retrier: a non-aborted failure of an attempt propagates after one
attempt, an aborted attempt with budget left triggers exactly one more
round, and an aborted attempt with the budget exhausted surfaces
AbortedError. -/
theorem c4_commit_conflict (t : Txn) (fuel : Nat) (k : ErrKind)
    (rest : List AttemptResult)
    (hs : t.state = TxnState.active) (hro : t.read_only = false) :
    t.commit CommitOutcome.conflict = ⟨Except.error ErrKind.abortedError, t, 1⟩ ∧
    run_in_transaction fuel (AttemptResult.failOther k :: rest) = (Except.error k, 1) ∧
    run_in_transaction (fuel + 1) (AttemptResult.abort :: rest) =
      ((run_in_transaction fuel rest).1, (run_in_transaction fuel rest).2 + 1) ∧
    run_in_transaction 0 (AttemptResult.abort :: rest) =
      (Except.error ErrKind.abortedError, 1) := by
  refine ⟨?_, ?_, ?_, ?_⟩
  · simp [Txn.commit, hs, hro]
  · cases fuel <;> simp [run_in_transaction]
  · simp [run_in_transaction]
  · simp [run_in_transaction]

/-- Witness for C4: a conflicting commit on a fresh transaction surfaces
AbortedError with the record untouched, and the helper given one aborted
attempt and then a clean one succeeds after two attempts. -/
theorem c4_witness :
    t0.commit CommitOutcome.conflict = ⟨Except.error ErrKind.abortedError, t0, 1⟩ ∧
    run_in_transaction 3 [AttemptResult.abort, AttemptResult.success] = (Except.ok (), 2) := by
  have h := c4_commit_conflict t0 2 ErrKind.connectionError [AttemptResult.success] rfl rfl
  exact ⟨h.1, rfl⟩

/-- Claim C5: every transaction invariant violation fails synchronously
with zero RPCs issued: a mutate on a read-only transaction, a mutate,
commit or mutating do_request once the state is Committed or Discarded
(all surfacing the transaction-state error kind), and constructing a
transaction with best-effort requested without read-only (surfacing
InvalidArgument, the name section 4.2 of the spec uses for this case). -/
theorem c5_fail_fast (t : Txn) (resp : Response) (cn : Bool)
    (outcome : CommitOutcome) :
    (t.read_only = true →
      t.mutate resp cn = ⟨Except.error ErrKind.txnStateError, t, 0⟩) ∧
    (t.state ≠ TxnState.active →
      t.mutate resp cn = ⟨Except.error ErrKind.txnStateError, t, 0⟩ ∧
      t.do_request resp true cn = ⟨Except.error ErrKind.txnStateError, t, 0⟩ ∧
      t.commit outcome = ⟨Except.error ErrKind.txnStateError, t, 0⟩) ∧
    new_txn false true = (Except.error ErrKind.invalidArgument, 0) := by
  refine ⟨?_, ?_, rfl⟩
  · intro h
    simp [Txn.mutate, h]
  · intro h
    refine ⟨?_, ?_, by simp [Txn.commit, h]⟩ <;>
      cases hro : t.read_only <;> simp [Txn.mutate, Txn.do_request, hro, h]

/-- A transaction already committed, on which every further mutate or
commit must fail fast. -/
def t_committed : Txn := { t0 with state := TxnState.committed }

/-- Witness for C5: a mutate on a committed transaction fails with the
transaction-state error and zero RPCs, and the best-effort-without-
read-only construction fails with InvalidArgument and zero RPCs. -/
theorem c5_witness :
    t_committed.mutate resp_ab false =
      ⟨Except.error ErrKind.txnStateError, t_committed, 0⟩ ∧
    new_txn false true = (Except.error ErrKind.invalidArgument, 0) := by
  have h := c5_fail_fast t_committed resp_ab false (CommitOutcome.ok 1)
  exact ⟨(h.2.1 (by decide)).1, h.2.2⟩

/-- Claim C6: discard is idempotent and absorbing after commit: on a still
Active transaction it sends the one best-effort discard notification,
never errors whatever that notification did, and moves to Discarded; a
second discard, or a discard after a successful commit, raises no error,
sends no second network discard call and changes nothing. -/
lemma discard_nonactive (t : Txn) (b : Bool) (h : t.state ≠ TxnState.active) :
    t.discard b = ⟨Except.ok RespVal.unit, t, 0⟩ := by
  simp [Txn.discard, h]

theorem c6_discard_noop (t : Txn) (b b2 : Bool) (c : Nat) :
    (t.state = TxnState.active →
      t.discard b = ⟨Except.ok RespVal.unit, { t with state := TxnState.discarded }, 1⟩ ∧
      (t.discard b).txn.discard b2 =
        ⟨Except.ok RespVal.unit, (t.discard b).txn, 0⟩ ∧
      (t.commit (CommitOutcome.ok c)).txn.discard b2 =
        ⟨Except.ok RespVal.unit, (t.commit (CommitOutcome.ok c)).txn, 0⟩) ∧
    (t.state ≠ TxnState.active → t.discard b = ⟨Except.ok RespVal.unit, t, 0⟩) := by
  constructor
  · intro hs
    have h1 : (t.discard b).txn.state = TxnState.discarded := by
      simp [Txn.discard, hs]
    have h2 : (t.commit (CommitOutcome.ok c)).txn.state = TxnState.committed := by
      cases hro : t.read_only <;> simp [Txn.commit, hs, hro]
    refine ⟨by simp [Txn.discard, hs],
      discard_nonactive _ b2 (by simp [h1]),
      discard_nonactive _ b2 (by simp [h2])⟩
  · intro hs
    exact discard_nonactive t b hs

/-- Witness for C6: on a fresh transaction, a discard whose notification
failed still succeeds with one RPC, and the second discard is a no-op with
zero RPCs. -/
theorem c6_witness :
    t0.discard false = ⟨Except.ok RespVal.unit, { t0 with state := TxnState.discarded }, 1⟩ ∧
    (t0.discard false).txn.discard true =
      ⟨Except.ok RespVal.unit, (t0.discard false).txn, 0⟩ := by
  have h := (c6_discard_noop t0 false true 7).1 rfl
  exact ⟨h.1, h.2.1⟩

lemma run_bind (p : Proc α) (f : α → Proc β) :
    (p.bind f).run = (f p.run).run := by
  induction p with
  | done a => rfl
  | suspend k ih =>
    simp only [Proc.bind, Proc.run]
    exact ih ()

lemma steps_bind (p : Proc α) (f : α → Proc β) :
    (p.bind f).steps = p.steps + (f p.run).steps := by
  induction p with
  | done a => simp [Proc.bind, Proc.steps, Proc.run]
  | suspend k ih =>
    simp only [Proc.bind, Proc.steps, Proc.run]
    rw [ih ()]
    omega

lemma async_query_run (t : Txn) (resp : Response) :
    (t.async_query resp).run = t.query resp ∧
    (t.async_query resp).steps = (t.query resp).rpcs := by
  by_cases h : t.state = TxnState.active <;>
    simp [Txn.async_query, Txn.query, h, Proc.run, Proc.steps]

lemma async_mutate_run (t : Txn) (resp : Response) (cn : Bool) :
    (t.async_mutate resp cn).run = t.mutate resp cn ∧
    (t.async_mutate resp cn).steps = (t.mutate resp cn).rpcs := by
  cases hro : t.read_only <;> by_cases h : t.state = TxnState.active <;>
    simp [Txn.async_mutate, Txn.mutate, hro, h, Proc.run, Proc.steps]

lemma async_do_request_run (t : Txn) (resp : Response) (hm cn : Bool) :
    (t.async_do_request resp hm cn).run = t.do_request resp hm cn ∧
    (t.async_do_request resp hm cn).steps = (t.do_request resp hm cn).rpcs := by
  cases hm
  · simpa [Txn.async_do_request, Txn.do_request] using async_query_run t resp
  · simpa [Txn.async_do_request, Txn.do_request] using async_mutate_run t resp cn

lemma async_commit_run (t : Txn) (outcome : CommitOutcome) :
    (t.async_commit outcome).run = t.commit outcome ∧
    (t.async_commit outcome).steps = (t.commit outcome).rpcs := by
  by_cases h : t.state = TxnState.active <;> cases hro : t.read_only <;> cases outcome <;>
    simp [Txn.async_commit, Txn.commit, h, hro, Proc.run, Proc.steps]

lemma async_discard_run (t : Txn) (b : Bool) :
    (t.async_discard b).run = t.discard b ∧
    (t.async_discard b).steps = (t.discard b).rpcs := by
  by_cases h : t.state = TxnState.active <;>
    simp [Txn.async_discard, Txn.discard, h, Proc.run, Proc.steps]

lemma async_step_run (t : Txn) (op : Op) :
    (t.async_step op).run = t.step op ∧
    (t.async_step op).steps = (t.step op).rpcs := by
  cases op with
  | query resp => exact async_query_run t resp
  | mutate resp cn => exact async_mutate_run t resp cn
  | do_req resp hm cn => exact async_do_request_run t resp hm cn
  | commit outcome => exact async_commit_run t outcome
  | discard b => exact async_discard_run t b

/-- Claim C9: for every scripted sequence of server responses, running the
same operations through the async mirror and through the blocking engine
yields the same accumulated result: the same final transaction record
(state, start timestamp, keys, predicates), equal returned payloads call
by call, and the same RPC count; the two runs differ only in that the
async form passes a suspension point exactly once per RPC issued. -/
theorem c9_async_mirror (t : Txn) (ops : List Op) :
    (async_run_ops t ops).run = run_ops t ops ∧
    (async_run_ops t ops).steps = (run_ops t ops).rpcs := by
  induction ops generalizing t with
  | nil => exact ⟨rfl, rfl⟩
  | cons op ops ih =>
    have hstep := async_step_run t op
    have hih := ih (t.step op).txn
    constructor
    · simp [async_run_ops, run_ops, run_bind, Proc.run, hstep.1, hih.1]
    · simp [async_run_ops, run_ops, steps_bind, run_bind, Proc.run, Proc.steps,
        hstep.1, hstep.2, hih.1, hih.2]

end Pydgraph
